import Mathlib

/-!
Verification of the storage-abstraction layer of the NMatrix fragment
(src/ext/nmatrix/storage/common.h) against its specification.

The header under src/ declares the value types `STORAGE_PAIR` and `SLICE`
and the counting primitive `storage_count_max_elements`; the operations of
the Storage Capability Interface (get, set, get_slice, set_slice), the
pairing constructor and the casting policy are only specified, not present
in the source fragment, so they are modelled from the spec below (each such
definition carries a doc comment saying so).

Storages live in an explicit memory of element buffers (`Mem`), so that
copy-versus-alias questions (frame effects of slicing and mutation) are
expressible: a `StorageRef` holds its shape and dtype inline and points at
its payload buffer by index.
-/

namespace NMatrixStorage

/-- The error kinds of the layer, from spec section 7. -/
inductive Err where
  | outOfBounds
  | rankMismatch
  | overflow
  | incompatibleCast
deriving DecidableEq

/-- Modelled from the spec: element-type tags. The concrete dtype system is
external to the source fragment; the spec only requires a widening order in
which the result type is the smallest type representing both operands'
value ranges without loss, so we model the integer chain int8..int64 whose
value ranges are nested. -/
inductive Dtype where
  | int8
  | int16
  | int32
  | int64
deriving DecidableEq, Fintype

/-- Modelled from the spec: the backend variants {Dense, List, Compressed}
over which Storage is polymorphic. -/
inductive Backend where
  | dense
  | list
  | compressed
deriving DecidableEq

/-- The memory of element payload buffers; a storage points into it. -/
abbrev Mem := List (List Int)

/-- Modelled from the spec: a Storage instance (the concrete backends are
outside the source fragment). Essential attributes per the data model:
element-type tag, shape (the rank is its length), and the backend-specific
payload, held here as an index into the buffer memory. -/
structure StorageRef where
  dtype : Dtype
  backend : Backend
  shape : List Nat
  buf : Nat
deriving DecidableEq

/-- rank() = number of dimensions = length of shape(). -/
def rank (s : StorageRef) : Nat := s.shape.length

/-- The SLICE descriptor from common.h: start coordinates, lengths, and a
stored boolean flag; the struct places no constraint tying `single` to
`lengths`. -/
structure SLICE where
  coords : List Nat
  lengths : List Nat
  single : Bool
deriving DecidableEq

/-- The STORAGE_PAIR struct from common.h: the two operands of a binary
operation. -/
structure STORAGE_PAIR where
  left : StorageRef
  right : StorageRef
deriving DecidableEq

/-- Product of a list of extents. -/
def listProd : List Nat → Nat
  | [] => 1
  | x :: xs => x * listProd xs

/-- The addressable-size limit of the host platform (SIZE_MAX for a 64-bit
size_t). -/
def sizeMax : Nat := 2 ^ 64 - 1

/-- Modelled from the spec: `storage_count_max_elements` is only declared in
common.h; its body is absent from the fragment. The spec defines it as a
pure function equal to the product of all entries of the storage's shape,
failing with Overflow when the product exceeds the platform's
addressable-size limit rather than wrapping. -/
def storage_count_max_elements (s : StorageRef) : Except Err Nat :=
  if listProd s.shape ≤ sizeMax then .ok (listProd s.shape) else .error .overflow

/-- State-passing form of the counting query. Its C signature takes the
storage behind a pointer to const, so the call carries the memory through
untouched and reads only the storage's shape. -/
def storage_count_max_elements_st (mem : Mem) (s : StorageRef) :
    Except Err Nat × Mem :=
  (storage_count_max_elements s, mem)

/-- Bounds check of a coordinate against a shape: same rank, and every
index strictly below the corresponding extent. -/
def inBoundsB : List Nat → List Nat → Bool
  | [], [] => true
  | s :: ss, c :: cs => decide (c < s) && inBoundsB ss cs
  | _, _ => false

/-- Row-major flattening of a coordinate within a shape. -/
def flatIndex : List Nat → List Nat → Nat
  | _ :: ss, c :: cs => c * listProd ss + flatIndex ss cs
  | _, _ => 0

/-- Bounds check of a slice region against a shape: same rank and, per
dimension, start + length within the extent. -/
def sliceOkB : List Nat → List Nat → List Nat → Bool
  | [], [], [] => true
  | s :: ss, c :: cs, l :: ls => decide (c + l ≤ s) && sliceOkB ss cs ls
  | _, _, _ => false

def sliceInBoundsB (shape : List Nat) (sl : SLICE) : Bool :=
  sliceOkB shape sl.coords sl.lengths

/-- All coordinate offsets inside a region of the given lengths, in
row-major order. -/
def regionCoords : List Nat → List (List Nat)
  | [] => [[]]
  | l :: ls => (List.range l).flatMap fun i => (regionCoords ls).map fun cs => i :: cs

/-- Componentwise sum of a start coordinate and an offset. -/
def addCoords (a b : List Nat) : List Nat := List.zipWith (· + ·) a b

/-- Modelled from the spec: `get` of the Storage Capability Interface (no
backend implementation is in the source fragment). Reads the element at a
coordinate, failing with OutOfBounds when any index is outside the shape. -/
def getRef (mem : Mem) (s : StorageRef) (c : List Nat) : Except Err Int :=
  if inBoundsB s.shape c then
    .ok ((mem.getD s.buf []).getD (flatIndex s.shape c) 0)
  else .error .outOfBounds

/-- Modelled from the spec: `set` of the Storage Capability Interface.
Validates bounds before writing any element; on failure the memory is
returned as received together with the error. -/
def setRef (mem : Mem) (s : StorageRef) (c : List Nat) (v : Int) :
    Mem × Option Err :=
  if inBoundsB s.shape c then
    (mem.set s.buf ((mem.getD s.buf []).set (flatIndex s.shape c) v), none)
  else (mem, some .outOfBounds)

/-- Modelled from the spec: `get_slice` of the Storage Capability
Interface. Materializes the requested sub-region as an independent storage
with copy semantics: the selected elements are copied into a fresh buffer
appended to the memory, and the result's shape is the descriptor's
lengths. -/
def getSliceRef (mem : Mem) (s : StorageRef) (sl : SLICE) :
    Except Err (Mem × StorageRef) :=
  if sliceInBoundsB s.shape sl then
    .ok (mem ++ [(regionCoords sl.lengths).map fun o =>
           (mem.getD s.buf []).getD (flatIndex s.shape (addCoords sl.coords o)) 0],
         { s with shape := sl.lengths, buf := mem.length })
  else .error .outOfBounds

/-- Modelled from the spec: `set_slice` of the Storage Capability
Interface. Validates the whole region against the shape before writing any
element; on failure the memory is returned as received. -/
def setSliceRef (mem : Mem) (s : StorageRef) (sl : SLICE) (src : List Int) :
    Mem × Option Err :=
  if sliceInBoundsB s.shape sl then
    (mem.set s.buf
      ((List.zip (regionCoords sl.lengths) src).foldl
        (fun b p => b.set (flatIndex s.shape (addCoords sl.coords p.1)) p.2)
        (mem.getD s.buf [])),
     none)
  else (mem, some .outOfBounds)

/-- Modelled from the spec: the pairing constructor `pair(left, right)`
(only the STORAGE_PAIR struct is in the fragment). It captures the two
operand references and fails with RankMismatch iff the ranks differ; no
casting and no payload copying happen at pairing time. -/
def pairStorage (l r : StorageRef) : Except Err STORAGE_PAIR :=
  if rank l = rank r then .ok ⟨l, r⟩ else .error .rankMismatch

/-- Modelled from the spec: the Slice Descriptor constructor (absent from
the fragment, which only declares the struct); `single` is derived, true
iff every length equals 1. -/
def mkSlice (coords lengths : List Nat) : SLICE :=
  ⟨coords, lengths, lengths.all fun l => l == 1⟩

/-- Modelled from the spec: the smallest representable value of each
element type. -/
def dtypeMin : Dtype → Int
  | .int8 => -(2 ^ 7)
  | .int16 => -(2 ^ 15)
  | .int32 => -(2 ^ 31)
  | .int64 => -(2 ^ 63)

/-- Modelled from the spec: the largest representable value of each
element type. -/
def dtypeMax : Dtype → Int
  | .int8 => 2 ^ 7 - 1
  | .int16 => 2 ^ 15 - 1
  | .int32 => 2 ^ 31 - 1
  | .int64 => 2 ^ 63 - 1

/-- Type a can be represented by type b without loss: a's value range is
contained in b's. -/
def canRepresent (a b : Dtype) : Bool :=
  decide (dtypeMin b ≤ dtypeMin a) && decide (dtypeMax a ≤ dtypeMax b)

/-- Modelled from the spec: the Casting Policy's element-type widening
("widen, never narrow implicitly"): the common type of two operands is the
one whose range contains the other's. -/
def widen (a b : Dtype) : Dtype := if canRepresent a b then b else a

end NMatrixStorage

namespace NMatrixStorage

theorem getD_append_lt {α : Type} (l l' : List α) (i : Nat) (d : α)
    (h : i < l.length) : (l ++ l').getD i d = l.getD i d := by
  induction l generalizing i with
  | nil => simp at h
  | cons a t ih =>
    cases i with
    | zero => rfl
    | succ n =>
      simp only [List.cons_append, List.getD_cons_succ]
      exact ih n (by simpa using h)

theorem getD_set_ne {α : Type} (l : List α) (i j : Nat) (x d : α)
    (h : i ≠ j) : (l.set i x).getD j d = l.getD j d := by
  induction l generalizing i j with
  | nil => rfl
  | cons a t ih =>
    cases i with
    | zero =>
      cases j with
      | zero => exact absurd rfl h
      | succ m => rfl
    | succ n =>
      cases j with
      | zero => rfl
      | succ m =>
        simp only [List.set_cons_succ, List.getD_cons_succ]
        exact ih n m (fun hnm => h (by rw [hnm]))

theorem getD_set_self {α : Type} (l : List α) (i : Nat) (x d : α)
    (h : i < l.length) : (l.set i x).getD i d = x := by
  induction l generalizing i with
  | nil => simp at h
  | cons a t ih =>
    cases i with
    | zero => rfl
    | succ n =>
      simp only [List.set_cons_succ, List.getD_cons_succ]
      exact ih n (by simpa using h)

theorem getRef_congr_mem (m1 m2 : Mem) (s : StorageRef) (c : List Nat)
    (h : m1.getD s.buf [] = m2.getD s.buf []) :
    getRef m1 s c = getRef m2 s c := by
  unfold getRef
  rw [h]

theorem flatIndex_lt_listProd (shape c : List Nat)
    (h : inBoundsB shape c = true) : flatIndex shape c < listProd shape := by
  induction shape generalizing c with
  | nil =>
    cases c with
    | nil => simp [flatIndex, listProd]
    | cons x xs => simp [inBoundsB] at h
  | cons s ss ih =>
    cases c with
    | nil => simp [inBoundsB] at h
    | cons x xs =>
      simp only [inBoundsB, Bool.and_eq_true, decide_eq_true_eq] at h
      have hx : x < s := h.1
      have htail := ih xs h.2
      show x * listProd ss + flatIndex ss xs < s * listProd ss
      calc x * listProd ss + flatIndex ss xs
          < x * listProd ss + listProd ss := Nat.add_lt_add_left htail _
        _ = (x + 1) * listProd ss := by ring
        _ ≤ s * listProd ss := Nat.mul_le_mul_right _ (Nat.succ_le_of_lt hx)

/-- C1: whenever the product of the shape extents is representable, the
max-elements query returns exactly that product. -/
theorem c1_max_elements_is_shape_product (s : StorageRef)
    (h : listProd s.shape ≤ sizeMax) :
    storage_count_max_elements s = .ok (listProd s.shape) := by
  unfold storage_count_max_elements
  simp [h]

/-- Witness for C1 at the concrete shape [2, 3, 4]. -/
theorem c1_witness :
    storage_count_max_elements ⟨.int8, .dense, [2, 3, 4], 0⟩ =
      .ok (listProd [2, 3, 4]) :=
  c1_max_elements_is_shape_product ⟨.int8, .dense, [2, 3, 4], 0⟩ (by decide)

/-- C2: whenever the product of the shape extents exceeds the platform's
addressable-size limit, the max-elements query fails with Overflow instead
of returning a wrapped value. -/
theorem c2_max_elements_overflow (s : StorageRef)
    (h : sizeMax < listProd s.shape) :
    storage_count_max_elements s = .error .overflow := by
  unfold storage_count_max_elements
  simp [Nat.not_le.mpr h]

/-- Witness for C2 at the concrete shape [2^32, 2^32, 2], whose product
exceeds 2^64 - 1. -/
theorem c2_witness :
    storage_count_max_elements ⟨.int8, .dense, [4294967296, 4294967296, 2], 0⟩ =
      .error .overflow :=
  c2_max_elements_overflow ⟨.int8, .dense, [4294967296, 4294967296, 2], 0⟩
    (by norm_num [listProd, sizeMax])

/-- C9: the counting query leaves the memory unchanged (its argument is a
pointer to const), and its result depends on nothing but the shape. -/
theorem c9_max_elements_pure (mem : Mem) (s : StorageRef) :
    (storage_count_max_elements_st mem s).2 = mem ∧
    (storage_count_max_elements_st mem s).1 = storage_count_max_elements s ∧
    ∀ t : StorageRef, s.shape = t.shape →
      storage_count_max_elements s = storage_count_max_elements t := by
  refine ⟨rfl, rfl, ?_⟩
  intro t ht
  unfold storage_count_max_elements
  rw [ht]

/-- Witness for C9: two storages of equal shape but different dtype,
backend and buffer give the same count, with the memory untouched. -/
theorem c9_witness :
    ([[1]] : Mem) = [[1]] ∧
    storage_count_max_elements ⟨.int8, .dense, [5, 7], 0⟩ =
      storage_count_max_elements ⟨.int64, .compressed, [5, 7], 3⟩ :=
  ⟨(c9_max_elements_pure [[1]] ⟨.int8, .dense, [5, 7], 0⟩).1,
   (c9_max_elements_pure [[1]] ⟨.int8, .dense, [5, 7], 0⟩).2.2
     ⟨.int64, .compressed, [5, 7], 3⟩ rfl⟩

/-- C7: on a well-formed storage (valid buffer of capacity size), setting
an in-bounds coordinate and reading it back returns the written value. -/
theorem c7_set_get_roundtrip (mem : Mem) (s : StorageRef) (c : List Nat)
    (v : Int) (hbuf : s.buf < mem.length)
    (hlen : (mem.getD s.buf []).length = listProd s.shape)
    (hin : inBoundsB s.shape c = true) :
    getRef (setRef mem s c v).1 s c = .ok v := by
  unfold setRef
  rw [if_pos hin]
  unfold getRef
  rw [if_pos hin]
  rw [getD_set_self mem s.buf _ [] hbuf]
  rw [getD_set_self]
  rw [hlen]
  exact flatIndex_lt_listProd s.shape c hin

/-- Witness for C7 on a shape-[2] storage at coordinate [1] with value 7. -/
theorem c7_witness :
    getRef (setRef [[0, 0]] (⟨.int32, .dense, [2], 0⟩ : StorageRef) [1] 7).1
      (⟨.int32, .dense, [2], 0⟩ : StorageRef) [1] = .ok 7 :=
  c7_set_get_roundtrip [[0, 0]] ⟨.int32, .dense, [2], 0⟩ [1] 7
    (by decide) (by decide) (by decide)

/-- C6: a failed set or set_slice returns the memory exactly as received
(bounds are validated before any element is written), and in particular
reading coordinate [5] on a shape-[3] storage fails with OutOfBounds. -/
theorem c6_failed_mutation_frame :
    (∀ (mem : Mem) (s : StorageRef) (c : List Nat) (v : Int),
       (setRef mem s c v).2.isSome = true → (setRef mem s c v).1 = mem) ∧
    (∀ (mem : Mem) (s : StorageRef) (sl : SLICE) (src : List Int),
       (setSliceRef mem s sl src).2.isSome = true →
         (setSliceRef mem s sl src).1 = mem) ∧
    (∀ (mem : Mem) (s : StorageRef), s.shape = [3] →
       getRef mem s [5] = .error .outOfBounds) := by
  refine ⟨?_, ?_, ?_⟩
  · intro mem s c v h
    by_cases hc : inBoundsB s.shape c
    · simp [setRef, hc] at h
    · simp [setRef, hc]
  · intro mem s sl src h
    by_cases hc : sliceInBoundsB s.shape sl
    · simp [setSliceRef, hc] at h
    · simp [setSliceRef, hc]
  · intro mem s hs
    unfold getRef
    rw [hs]
    rfl

/-- Witness for C6: a failing set at coordinate [5] of a shape-[1] storage
leaves the memory as it was, and the out-of-bounds get of the spec's
example fails with OutOfBounds. -/
theorem c6_witness :
    (setRef [[0]] (⟨.int8, .dense, [1], 0⟩ : StorageRef) [5] 0).1 = [[0]] ∧
    getRef [[0, 0, 0]] (⟨.int8, .dense, [3], 0⟩ : StorageRef) [5] =
      .error .outOfBounds :=
  ⟨c6_failed_mutation_frame.1 [[0]] ⟨.int8, .dense, [1], 0⟩ [5] 0 (by decide),
   c6_failed_mutation_frame.2.2 [[0, 0, 0]] ⟨.int8, .dense, [3], 0⟩ rfl⟩

theorem setRef_fst_getD_ne (mem : Mem) (s : StorageRef) (c : List Nat)
    (v : Int) (j : Nat) (hj : s.buf ≠ j) :
    ((setRef mem s c v).1).getD j [] = mem.getD j [] := by
  unfold setRef
  split
  · exact getD_set_ne _ _ _ _ _ hj
  · rfl

/-- C4: slicing materializes an independent copy: when get_slice succeeds,
mutating any coordinate of the returned storage changes no element of the
source as observed through get. -/
theorem c4_get_slice_copy_isolation (mem : Mem) (A : StorageRef) (sl : SLICE)
    (mem' : Mem) (B : StorageRef) (hA : A.buf < mem.length)
    (h : getSliceRef mem A sl = .ok (mem', B)) :
    ∀ (c : List Nat) (v : Int) (r : List Nat),
      getRef (setRef mem' B c v).1 A r = getRef mem A r := by
  unfold getSliceRef at h
  split at h
  · simp only [Except.ok.injEq, Prod.mk.injEq] at h
    obtain ⟨hm, hB⟩ := h
    subst hm
    subst hB
    intro c v r
    apply getRef_congr_mem
    rw [setRef_fst_getD_ne]
    · exact getD_append_lt _ _ _ _ hA
    · exact Nat.ne_of_gt hA
  · cases h

/-- Witness for C4: slicing the single cell of a one-element storage, then
overwriting the copy with 9, leaves the source's element readable as
before. -/
theorem c4_witness :
    getRef (setRef [[5], [5]] (⟨.int8, .dense, [1], 1⟩ : StorageRef) [0] 9).1
        (⟨.int8, .dense, [1], 0⟩ : StorageRef) [0] =
      getRef [[5]] (⟨.int8, .dense, [1], 0⟩ : StorageRef) [0] :=
  c4_get_slice_copy_isolation [[5]] ⟨.int8, .dense, [1], 0⟩ ⟨[0], [1], true⟩
    [[5], [5]] ⟨.int8, .dense, [1], 1⟩ (by decide) rfl [0] 9 [0]

/-- C3: pairing fails with RankMismatch exactly when the ranks differ, and
the outcome depends only on the two ranks, not on element type or backend
variant. -/
theorem c3_pair_rank_mismatch (A B : StorageRef) :
    (pairStorage A B = .error .rankMismatch ↔ rank A ≠ rank B) ∧
    ∀ A' B' : StorageRef, rank A' = rank A → rank B' = rank B →
      (pairStorage A' B' = .error .rankMismatch ↔
        pairStorage A B = .error .rankMismatch) := by
  constructor
  · unfold pairStorage
    by_cases h : rank A = rank B
    · simp [h]
    · simp [h]
  · intro A' B' hA hB
    unfold pairStorage
    rw [hA, hB]
    by_cases h : rank A = rank B
    · simp [h]
    · simp [h]

/-- Witness for C3: a rank-1/rank-2 pair fails with RankMismatch, and a
second pair with the same ranks but different dtypes and backends fails
the same way. -/
theorem c3_witness :
    (pairStorage ⟨.int8, .dense, [2], 0⟩ ⟨.int64, .compressed, [2, 2], 1⟩ =
        .error .rankMismatch) ∧
    (pairStorage ⟨.int16, .list, [3], 0⟩ ⟨.int32, .dense, [4, 5], 1⟩ =
        .error .rankMismatch ↔
      pairStorage ⟨.int8, .dense, [2], 0⟩ ⟨.int64, .compressed, [2, 2], 1⟩ =
        .error .rankMismatch) :=
  ⟨(c3_pair_rank_mismatch ⟨.int8, .dense, [2], 0⟩
      ⟨.int64, .compressed, [2, 2], 1⟩).1.mpr (by decide),
   (c3_pair_rank_mismatch ⟨.int8, .dense, [2], 0⟩
      ⟨.int64, .compressed, [2, 2], 1⟩).2
     ⟨.int16, .list, [3], 0⟩ ⟨.int32, .dense, [4, 5], 1⟩ rfl rfl⟩

/-- C5 counterexample: the SLICE struct admits the value with lengths [2]
and single = true, so it is false that for every slice descriptor the
single field is true iff every entry of lengths equals 1. -/
theorem c5_counterexample :
    ¬ ((SLICE.mk [0] [2] true).single = true ↔
       ∀ l ∈ (SLICE.mk [0] [2] true).lengths, l = 1) := by
  decide

/-- C5 (amended): every slice descriptor produced by the deriving
constructor has single = true iff every entry of its lengths equals 1. -/
theorem c5_mkSlice_single_iff (coords lengths : List Nat) :
    (mkSlice coords lengths).single = true ↔ ∀ l ∈ lengths, l = 1 := by
  simp [mkSlice, List.all_eq_true]

/-- C10: the SLICE type does not tie single to lengths: a value with
single = true and an entry of lengths different from 1 is representable. -/
theorem c10_single_field_unconstrained :
    ∃ sl : SLICE, sl.single = true ∧ ∃ l ∈ sl.lengths, l ≠ 1 :=
  ⟨⟨[0], [3], true⟩, rfl, 3, by decide, by decide⟩

/-- C8: element-type widening is idempotent and order-independent, and the
widened type is the smallest type representing both operands' value ranges
without loss. -/
theorem c8_widen_lattice (a b : Dtype) :
    widen a b = widen b a ∧
    widen a a = a ∧
    canRepresent a (widen a b) = true ∧
    canRepresent b (widen a b) = true ∧
    (∀ c : Dtype, canRepresent a c = true → canRepresent b c = true →
       canRepresent (widen a b) c = true) ∧
    (∀ t : Dtype, widen (widen t a) b = widen (widen t b) a) := by
  revert a b
  decide

/-- Witness for C8: int8 and int16 widen to int16, and the smallest-type
property applies with candidate int64. -/
theorem c8_witness :
    canRepresent (widen .int8 .int16) .int64 = true :=
  (c8_widen_lattice .int8 .int16).2.2.2.2.1 .int64 (by decide) (by decide)

end NMatrixStorage
